import Mathlib

/-!
# Verification of the dm-aiomodbus session layer

Shallow embedding of `dm_aiomodbus` (files `aiomodbus_base_client.py`,
`aiomodbus_clients.py`, `aiomodbus_temp_client.py`), and proofs of the
spec claims about it.

Modelling conventions:
* The pymodbus adapter (`AsyncModbusSerialClient` / `AsyncModbusTcpClient`)
  is external.  Each adapter instance is identified by a numeric id; the
  session state records which instance (if any) `self.__client` points to,
  whether its `connected` flag is live, and the `__soft_discon` flag.
* Outcomes of `await` calls into the adapter are oracle inputs: a register
  call either returns a response object or raises; `connect()` returns a
  boolean per attempt, supplied as a function of the attempt index.
* Python exceptions are the inductive `PyExn`; a raise that would escape a
  modelled function is returned in an explicit `raised : Option PyExn`
  field, so "no exception propagates" is a provable statement about data.
* Log calls are recorded as an event trace (`List LogEvent`).
-/

/-- Python exception classes that occur in the code under study.
`connErr` is `ConnectionError`, `modbusExc` is `pymodbus.ModbusException`,
`attrErr` is `AttributeError` (dereferencing an attribute of `None`),
`otherExc` stands for any other `Exception` subclass. -/
inductive PyExn
  | connErr
  | modbusExc
  | attrErr
  | otherExc
deriving DecidableEq

/-- Log calls made by the client, as abstract events (the concrete message
strings and keyword parameters are irrelevant to the claims). -/
inductive LogEvent
  | infoConnected          -- logger.info("Connected!")
  | infoDisconnected       -- logger.info("Disconnected!")
  | warnNotConnected       -- logger.warning("Client is not connected!")
  | errAlreadyConnected    -- logger.error("Client is already connected!")
  | errConnRetrying        -- logger.error(f"Connection error: {e}. Reconnecting ...")
  | warnPause              -- logger.warning("Action on pause! ...")
  | warnSkipped            -- logger.warning("Action skipped! ...")
  | errModbusLogged        -- logger.error(e) for a ModbusException, in __execute
  | errOtherLogged         -- logger.error(f"Error: {e}") in __execute
  | errNotMethod           -- logger.error("Attribute ... not a method")
  | errMethodNotFound      -- logger.error(f"Method ... not found")
  | warnCountMismatch      -- logger.warning(f"Expected {count} registers, got ...")
  | errNotCallable         -- logger.error("Callback is not a Callable object ...")
  | errCallback            -- logger.error(f"Callback error: {e}") in temp_connect
  | errConnCaught          -- logger.error(f"Connection error: {e}") in temp_connect
  | errOtherCaught         -- logger.error(f"Error: {e}") in temp_connect
deriving DecidableEq

/-- State of one `DMAioModbusBaseClient` session.
`clientId` is `self.__client`: `none` when the handle is `None`, otherwise
the id of the adapter instance it points to.  `nextId` is the id the next
`aio_modbus_lib_class(**config)` instantiation would get (so instance
creations are observable).  `connected` is the adapter's `connected`
liveness flag (meaningful only when `clientId` is set).  `softDiscon` is
`self.__soft_discon`. -/
structure SessionState where
  clientId : Option Nat
  nextId : Nat
  connected : Bool
  softDiscon : Bool
deriving DecidableEq

/-- `DMAioModbusBaseClient.__init__`: the adapter handle starts as `None`
(`self.__client = None`), `self.__soft_discon = False`. -/
def initSession : SessionState :=
  { clientId := none, nextId := 0, connected := false, softDiscon := false }

/-- Property `is_exists`: `self.__client is not None`. -/
def is_exists (st : SessionState) : Bool :=
  st.clientId.isSome

/-- Property `is_connected`: `self.is_exists and self.__client.connected`. -/
def is_connected (st : SessionState) : Bool :=
  is_exists st && st.connected

/-- `self.__client.close()` on the adapter: drops the transport, so the
adapter's `connected` flag goes false.  The handle itself is unchanged. -/
def clientClose (st : SessionState) : SessionState :=
  { st with connected := false }

/-- `DMAioModbusBaseClient.__soft_disconnect`:
```
if self.is_exists:
    if not self.__soft_discon:
        self.__soft_discon = True
        self.__logger.info("Disconnected!")
    self.__client.close()
```
Returns the new state, the log trace, and whether `close()` was called. -/
def soft_disconnect (st : SessionState) : SessionState × List LogEvent × Bool :=
  if is_exists st then
    if !st.softDiscon then
      (clientClose { st with softDiscon := true }, [.infoDisconnected], true)
    else
      (clientClose st, [], true)
  else
    (st, [], false)

/-- `DMAioModbusBaseClient.disconnect`:
```
if self.is_exists:
    if self.is_connected: self.__logger.info("Disconnected!")
    else: self.__logger.warning("Client is not connected!")
    self.__client.close()
    self.__client = None
``` -/
def disconnect (st : SessionState) : SessionState × List LogEvent :=
  if is_exists st then
    let logs : List LogEvent :=
      if is_connected st then [.infoDisconnected] else [.warnNotConnected]
    ({ clientClose st with clientId := none }, logs)
  else
    (st, [])

/-- Iterated `__soft_disconnect`: a sequence of n soft-disconnect calls on
one session, concatenating the log traces. -/
def soft_disconnectN : Nat → SessionState → SessionState × List LogEvent
  | 0, st => (st, [])
  | n + 1, st =>
      let r := soft_disconnect st
      let rest := soft_disconnectN n r.1
      (rest.1, r.2.1 ++ rest.2)

/-- `DMAioModbusBaseClient.__connect`:
```
self.__client = self.__aio_modbus_lib_class(**self.__modbus_config)
if not await self.__client.connect():
    raise ConnectionError("No connection established")
self.__logger.info("Connected!")
```
A NEW adapter instance (id `st.nextId`) is created on every call; the
oracle `connectOk` is what `await self.__client.connect()` returned.  The
returned `Option PyExn` is the exception the call raises, if any (the
assignment to `self.__client` persists even when it raises). -/
def privConnect (st : SessionState) (connectOk : Bool) :
    SessionState × Option PyExn × List LogEvent :=
  let st1 : SessionState :=
    { st with clientId := some st.nextId, nextId := st.nextId + 1,
              connected := connectOk }
  if connectOk then (st1, none, [.infoConnected])
  else (st1, some .connErr, [])

/-- The foreground pass of `_reconnect_loop(exit_after_connect=True)` inside
`DMAioModbusBaseClient.connect`:
```
while True:
    try:
        if not self.is_connected:
            await self.__connect()
        if exit_after_connect:
            break
        ...
    except Exception as e:
        self.__client.close()
        self.__logger.error(f"Connection error: {e}. Reconnecting in ...")
        await asyncio.sleep(self.__reconnect_interval)
```
`oracle k` is the boolean `connect()` returns on the k-th attempt.  `fuel`
bounds the number of loop iterations we model; `none` means the loop was
still retrying when the fuel ran out (in Python it retries forever — every
exception is caught by `except Exception`, none escapes). -/
def connectAttempts (oracle : Nat → Bool) :
    Nat → Nat → SessionState → List LogEvent → Option (SessionState × List LogEvent)
  | 0, _, _, _ => none
  | fuel + 1, k, st, logs =>
      if is_connected st then some (st, logs)
      else
        let r := privConnect st (oracle k)
        match r.2.1 with
        | none => some (r.1, logs ++ r.2.2)
        | some _ =>
            connectAttempts oracle fuel (k + 1) (clientClose r.1)
              (logs ++ r.2.2 ++ [.errConnRetrying])

/-- `DMAioModbusBaseClient.connect` (foreground part; the background
`_reconnect_loop()` task it then spawns keeps the link alive and is not
needed by the claims):
```
if self.is_connected:
    self.__logger.error("Client is already connected!")
    return
await _reconnect_loop(exit_after_connect=True)
```
Result `none` = the retry loop never succeeded within `fuel` attempts and
is still running (the Python call has not returned); it never raises. -/
def connect (st : SessionState) (oracle : Nat → Bool) (fuel : Nat) :
    Option (SessionState × List LogEvent) :=
  if is_connected st then some (st, [.errAlreadyConnected])
  else connectAttempts oracle fuel 0 st []

/-- A Modbus response object, as consumed by `__execute` / `__read_register`:
its `isError()` flag, whether it is an `ExceptionResponse` instance, and its
`registers` attribute (`none` when the object has no such attribute). -/
structure Response where
  isErrFlag : Bool
  isExceptionResp : Bool
  registers : Option (List Nat)
deriving DecidableEq

/-- Outcome of `await async_method(**kwargs)` on the adapter: a response
object, or a raised exception. -/
def AdapterCall : Type := Except PyExn Response

/-- A response "indicates an error" when `result.isError()` holds or the
response is an `ExceptionResponse`; a raising call is also an error. -/
def callIndicatesError (call : AdapterCall) : Bool :=
  match call with
  | .ok r => r.isErrFlag || r.isExceptionResp
  | .error _ => true

/-- Result of `DMAioModbusBaseClient.__execute`. -/
structure ExecOut where
  result : Option Response
  st : SessionState
  raised : Option PyExn
  logs : List LogEvent
deriving DecidableEq

/-- `DMAioModbusBaseClient.__execute(method_name, kwargs)`:
```
skip = False
if self.is_exists and not self.is_connected:
    self.__logger.warning("Action on pause! Waiting for reconnection...", ...)
    retries = 0
    while not self.is_connected:
        if retries >= self.__reconnect_interval + 1: skip = True; break
        await asyncio.sleep(0.1); retries += 0.1
if not self.is_exists or skip:
    self.__logger.warning("Action skipped! Client is not connected!", ...)
if hasattr(self.__client, method_name):
    async_method = getattr(self.__client, method_name)
    if callable(async_method):
        try:
            result = await async_method(**kwargs)
            if result.isError() or isinstance(result, ExceptionResponse):
                raise ModbusException(f"Received error: {result}")
            return result
        except ModbusException as e:
            self.__logger.error(e, ...); self.__soft_disconnect()
        except Exception as e:
            self.__logger.error(f"Error: {e}", ...); self.__soft_disconnect()
    else: self.__logger.error("Attribute ... not a method", ...)
else: self.__logger.error(f"Method '{method_name}' not found", ...)
```
`reconnectedInTime` is whether the wait loop saw `is_connected` become true
before its timeout (the background reconnect task may restore the link).
The eight operation names are all bound methods on both pymodbus client
classes, and `hasattr(None, name)` is false, so the `hasattr` test reduces
to `is_exists` and the `callable` test to true.  Note the code proceeds to
the call even when `skip` is set.  All raises inside the `try` are caught
(`except Exception` is a catch-all), so `raised` is `none` on every path. -/
def execute (st : SessionState) (reconnectedInTime : Bool) (call : AdapterCall) :
    ExecOut :=
  let pauseLogs : List LogEvent :=
    if is_exists st && !is_connected st then [.warnPause] else []
  let skip : Bool := is_exists st && !is_connected st && !reconnectedInTime
  let st1 : SessionState :=
    if is_exists st && !is_connected st && reconnectedInTime then
      { st with connected := true }
    else st
  let skipLogs : List LogEvent :=
    if !is_exists st1 || skip then [.warnSkipped] else []
  let pre := pauseLogs ++ skipLogs
  if is_exists st1 then
    match call with
    | .ok r =>
        if r.isErrFlag || r.isExceptionResp then
          let sd := soft_disconnect st1
          { result := none, st := sd.1, raised := none,
            logs := pre ++ [.errModbusLogged] ++ sd.2.1 }
        else
          { result := some r, st := st1, raised := none, logs := pre }
    | .error e =>
        let sd := soft_disconnect st1
        let tag : LogEvent :=
          match e with
          | .modbusExc => .errModbusLogged
          | _ => .errOtherLogged
        { result := none, st := sd.1, raised := none,
          logs := pre ++ [tag] ++ sd.2.1 }
  else
    { result := none, st := st1, raised := none,
      logs := pre ++ [.errMethodNotFound] }

/-- `DMAioModbusBaseClient.__read_register(method_name, address, count)`:
```
result = await self.__execute(method_name, kwargs)
if result is None: return None
result_data = result.registers if hasattr(result, "registers") else []
if count != len(result_data):
    self.__logger.warning(f"Expected {count} registers, got {len(result_data)}", ...)
return result_data
``` -/
def read_register (st : SessionState) (reconnectedInTime : Bool) (count : Nat)
    (call : AdapterCall) :
    Option (List Nat) × SessionState × List LogEvent × Option PyExn :=
  let o := execute st reconnectedInTime call
  match o.raised with
  | some e => (none, o.st, o.logs, some e)
  | none =>
      match o.result with
      | none => (none, o.st, o.logs, none)
      | some r =>
          let result_data : List Nat :=
            match r.registers with
            | some l => l
            | none => []
          let warn : List LogEvent :=
            if count ≠ result_data.length then [.warnCountMismatch] else []
          (some result_data, o.st, o.logs ++ warn, none)

/-- `DMAioModbusBaseClient.__write(method_name, address, value_obj)`:
```
result = await self.__execute(method_name, kwargs)
return bool(result)
```
`bool(None)` is false; a pymodbus response object defines neither
`__bool__` nor `__len__`, so `bool(result)` is true on any response. -/
def write (st : SessionState) (reconnectedInTime : Bool) (call : AdapterCall) :
    Bool × SessionState × List LogEvent × Option PyExn :=
  let o := execute st reconnectedInTime call
  match o.raised with
  | some e => (false, o.st, o.logs, some e)
  | none => (o.result.isSome, o.st, o.logs, none)

/-- The eight public register operations of the Register Operation Layer. -/
inductive RegOp
  | read_coils
  | read_discrete_inputs
  | read_holding_registers
  | read_input_registers
  | write_coil
  | write_register
  | write_coils
  | write_registers
deriving DecidableEq

/-- Whether the operation is one of the four write operations. -/
def RegOp.isWrite : RegOp → Bool
  | .write_coil | .write_register | .write_coils | .write_registers => true
  | _ => false

/-- Result of a register operation as seen by the caller: an optional
register list for reads, a boolean for writes. -/
inductive OpResult
  | readRes (v : Option (List Nat))
  | writeRes (b : Bool)
deriving DecidableEq

/-- Outcome of one register operation call. -/
structure OpOut where
  res : OpResult
  st : SessionState
  logs : List LogEvent
  raised : Option PyExn
deriving DecidableEq

/-- Dispatch of the eight public operations: each of `read_coils`,
`read_discrete_inputs`, `read_holding_registers`, `read_input_registers`
is `await self.__read_register(name, address, count)`; each of
`write_coil`, `write_register`, `write_coils`, `write_registers` is
`await self.__write(name, address, value_obj)`.  `count` is the requested
register count (reads only). -/
def runOp (op : RegOp) (st : SessionState) (reconnectedInTime : Bool)
    (count : Nat) (call : AdapterCall) : OpOut :=
  match op with
  | .read_coils | .read_discrete_inputs | .read_holding_registers
  | .read_input_registers =>
      let r := read_register st reconnectedInTime count call
      { res := .readRes r.1, st := r.2.1, logs := r.2.2.1, raised := r.2.2.2 }
  | .write_coil | .write_register | .write_coils | .write_registers =>
      let w := write st reconnectedInTime call
      { res := .writeRes w.1, st := w.2.1, logs := w.2.2.1, raised := w.2.2.2 }

/-- Outcome of a `DMAioModbusBaseClient.temp_connect` run.
`retval` is the value `temp_connect` returns (`none` = Python `None`);
`raisedToCaller` is the exception that escapes `temp_connect` to its
caller, if any; `closeCalled` is whether `close()` reached the adapter;
`callbackRuns` is how many times the caller callback was invoked;
`diverged` is true when `client.connect()` was still retrying within the
modelled fuel, so `temp_connect` has not returned at all. -/
structure TempOut where
  retval : Option Nat
  raisedToCaller : Option PyExn
  closeCalled : Bool
  callbackRuns : Nat
  logs : List LogEvent
  diverged : Bool
deriving DecidableEq

/-- `DMAioModbusBaseClient.temp_connect(callback, aio_modbus_lib_class, config, tag)`:
```
if not callable(callback):
    cls.__logger.error(f"Callback is not a Callable object: ...")
    return
client = DMAioModbusBaseClient(aio_modbus_lib_class, modbus_config, name_tag)
try:
    temp_client = DMAioModbusTempClientInterface(client)
    await client.connect()
    try:
        return await callback(temp_client)
    except Exception as e:
        logger.error(f"Callback error: {e}")
    finally:
        cls.__soft_disconnect(client)
        cls.__soft_discon = False
except ConnectionError as e:
    logger.error(f"Connection error: {e}")
except Exception as e:
    logger.error(f"Error: {e}")
```
The callback's behaviour is the oracle pair (`cbRaises`, `cbValue`): it
raises some exception, or returns `cbValue`.  `oracle`/`fuel` drive
`client.connect()` as in `connect`.  The facade
(`DMAioModbusTempClientInterface`) merely forwards the eight operations to
`client` and plays no further role here.

`classLoggerSet` records whether `set_logger` previously installed a
class-level logger: the class attribute `__logger` defaults to `None`
(line 17), and the logger `__init__` builds is an instance attribute that
never reaches the class.  The non-callable guard's log call
`cls.__logger.error(...)` runs BEFORE the `cls.__logger is None` check of
lines 105-109, so with no class logger configured that line dereferences
`None` and raises `AttributeError` straight to the caller (nothing guards
it — the `try` has not been entered).  On the callable path, the
callback's exception is consumed by the inner `except Exception`; the
outer handlers would catch a `ConnectionError` (or anything else)
escaping the outer `try`, so nothing is re-raised to the caller there. -/
def temp_connect (classLoggerSet : Bool) (callbackCallable : Bool)
    (oracle : Nat → Bool) (fuel : Nat)
    (cbRaises : Bool) (cbValue : Nat) : TempOut :=
  if !callbackCallable then
    if classLoggerSet then
      { retval := none, raisedToCaller := none, closeCalled := false,
        callbackRuns := 0, logs := [.errNotCallable], diverged := false }
    else
      { retval := none, raisedToCaller := some .attrErr, closeCalled := false,
        callbackRuns := 0, logs := [], diverged := false }
  else
    match connect initSession oracle fuel with
    | none =>
        { retval := none, raisedToCaller := none, closeCalled := false,
          callbackRuns := 0, logs := [], diverged := true }
    | some (st1, l1) =>
        let sd := soft_disconnect st1
        if cbRaises then
          { retval := none, raisedToCaller := none, closeCalled := sd.2.2,
            callbackRuns := 1, logs := l1 ++ [.errCallback] ++ sd.2.1,
            diverged := false }
        else
          { retval := some cbValue, raisedToCaller := none,
            closeCalled := sd.2.2, callbackRuns := 1,
            logs := l1 ++ sd.2.1, diverged := false }

/-- The adapter classes the clients module can pass to the base client. -/
inductive AdapterClass
  | asyncModbusSerialClient
  | asyncModbusTcpClient
deriving DecidableEq

/-- `DMAioModbusTcpClient.__init__(host, port, name_tag)` passes
`aio_modbus_lib_class=AsyncModbusTcpClient` and
`modbus_config={"host": host, "port": port}` to the base constructor.
Parameter values are opaque (`α`). -/
def tcpClientInit {α : Type} (host port : α) : AdapterClass × List (String × α) :=
  (.asyncModbusTcpClient, [("host", host), ("port", port)])

/-- `DMAioModbusTcpClient.temp_connect(callback, host, port, name_tag)`
builds `modbus_config = {"host": host, "port": port}` and calls
`super().temp_connect(callback, aio_modbus_lib_class=AsyncModbusSerialClient,
modbus_config=modbus_config, name_tag=name_tag)` — the adapter class
argument in the source is `AsyncModbusSerialClient`. -/
def tcpClientTempConnect {α : Type} (host port : α) :
    AdapterClass × List (String × α) :=
  (.asyncModbusSerialClient, [("host", host), ("port", port)])

/-- `DMAioModbusSerialClient.__init__` passes
`aio_modbus_lib_class=AsyncModbusSerialClient` to the base constructor. -/
def serialClientInitAdapter : AdapterClass := .asyncModbusSerialClient

/-- An attribute slot of a candidate logger object: absent, or present
with its callability (`isinstance(x, Callable)`). -/
def AttrSlot : Type := Option Bool

/-- `hasattr(logger, name) and isinstance(getattr(logger, name), Callable)`. -/
def attrCallable (a : AttrSlot) : Bool :=
  match a with
  | some c => c
  | none => false

/-- A candidate logger object, described by its four relevant attribute
slots. -/
structure LoggerObj where
  debugAttr : AttrSlot
  infoAttr : AttrSlot
  warningAttr : AttrSlot
  errorAttr : AttrSlot

/-- `DMAioModbusBaseClient.set_logger(logger)`:
```
if (hasattr(logger, "info") and isinstance(logger.info, Callable) and
    hasattr(logger, "warning") and isinstance(logger.warning, Callable) and
    hasattr(logger, "error") and isinstance(logger.error, Callable)):
    cls.__logger = logger
else:
    print("Invalid logger")
```
Returns the stored logger after the call (the new one on acceptance, the
previous one otherwise) and whether the candidate was accepted. -/
def set_logger (current : Option LoggerObj) (logger : LoggerObj) :
    Option LoggerObj × Bool :=
  if attrCallable logger.infoAttr && attrCallable logger.warningAttr &&
      attrCallable logger.errorAttr then
    (some logger, true)
  else
    (current, false)

/-- Modelled from the spec: the Action Queue Executor's drain loop
(spec §4.2) is part of this repository but absent from `src/` — the base
client in `src/` predates it (`aiomodbus_serial_client.py` already refers
to the newer `DMAioModbusBaseClientConfig`, which `src` does not contain).
Following the spec's words: actions are identified by their submission
index; `callableAct a` is whether entry `a` is a valid callable (an
invalid entry "is logged and skipped without consuming a retry slot");
`succeeds a k` is whether attempt `k` (0 = first run, 1 = the retry) of
action `a` succeeds.  The loop, while the queue is non-empty or a retry is
pending, runs the pending retry if one exists, otherwise pops the head of
the queue; on failure of a first attempt it marks that exact action as the
pending retry; a failing retry is dropped (no second retry).  The result
is the invocation trace: the list of (action, attempt) pairs in execution
order. -/
def drainLoop (callableAct : Nat → Bool) (succeeds : Nat → Nat → Bool) :
    List Nat → Option Nat → List (Nat × Nat)
  | queue, some a =>
      -- a retry is pending: it runs now, before any later-queued action;
      -- whatever its outcome, the action is then dropped
      (a, 1) :: drainLoop callableAct succeeds queue none
  | [], none => []
  | a :: rest, none =>
      if !callableAct a then
        drainLoop callableAct succeeds rest none
      else if succeeds a 0 then
        (a, 0) :: drainLoop callableAct succeeds rest none
      else
        (a, 0) :: drainLoop callableAct succeeds rest (some a)
termination_by q r => (q.length, if r.isSome then 1 else 0)

/-- Sample state: a session whose adapter exists and is connected (as after
a successful `connect`). -/
def stConn : SessionState :=
  { clientId := some 0, nextId := 1, connected := true, softDiscon := false }

/-- Sample state: a session whose adapter handle is `None` (fresh, or after
`disconnect`). -/
def stNoClient : SessionState :=
  { clientId := none, nextId := 1, connected := false, softDiscon := false }

/-- Sample response: error flag set. -/
def respErr : Response :=
  { isErrFlag := true, isExceptionResp := false, registers := none }

/-- Sample response: success carrying one register value. -/
def respOne : Response :=
  { isErrFlag := false, isExceptionResp := false, registers := some [5] }

/-- Sample candidate logger: callable `info`, `warning` and `error`, but no
`debug` attribute at all. -/
def loggerNoDebugAttr : LoggerObj :=
  { debugAttr := none, infoAttr := some true,
    warningAttr := some true, errorAttr := some true }

/-! ## Helper lemmas -/

/-- A soft-disconnect call on a session without an adapter handle is a
complete no-op. -/
theorem soft_disconnect_no_client (st : SessionState)
    (h : is_exists st = false) : soft_disconnect st = (st, [], false) := by
  simp [soft_disconnect, h]

/-- Iterated soft-disconnect on a session without an adapter handle is a
complete no-op. -/
theorem soft_disconnectN_no_client (n : Nat) (st : SessionState)
    (h : is_exists st = false) : soft_disconnectN n st = (st, []) := by
  induction n with
  | zero => rfl
  | succ n ih => simp [soft_disconnectN, soft_disconnect_no_client st h, ih]

/-- Once the `__soft_discon` flag is set, no further soft-disconnect call
ever logs anything. -/
theorem soft_disconnectN_announced (n : Nat) (st : SessionState)
    (h : st.softDiscon = true) : (soft_disconnectN n st).2 = [] := by
  induction n generalizing st with
  | zero => rfl
  | succ n ih =>
      by_cases he : is_exists st = true
      · simp [soft_disconnectN, soft_disconnect, he, h, ih (clientClose st) (by simp [clientClose, h])]
      · simp [soft_disconnectN, soft_disconnect_no_client st (by simpa using he),
              ih st h]

/-! ## Claim theorems -/

/-- Claim C7: calling close (soft disconnect) on an already-closed session
is idempotent — it produces no error (the call is a total no-op when the
adapter handle is gone, and re-applying it to its own output changes
nothing) — and over any sequence of repeated soft-disconnect calls the
connected-to-disconnected transition message "Disconnected!" is logged at
most once, guarded by the `__soft_discon` already-announced flag (exactly
once when the flag was clear and the adapter existed, never otherwise). -/
theorem claim_C7_soft_disconnect_idempotent (n : Nat) (st : SessionState) :
    ((soft_disconnectN n st).2.count LogEvent.infoDisconnected =
      if n = 0 ∨ st.softDiscon = true ∨ is_exists st = false then 0 else 1) ∧
    (soft_disconnect (soft_disconnect st).1).1 = (soft_disconnect st).1 ∧
    (is_exists st = false → soft_disconnectN n st = (st, [])) := by
  refine ⟨?_, ?_, fun h => soft_disconnectN_no_client n st h⟩
  · cases n with
    | zero => simp [soft_disconnectN]
    | succ m =>
        by_cases he : is_exists st = true
        · by_cases hs : st.softDiscon = true
          · simp [soft_disconnectN, soft_disconnect, he, hs,
                  soft_disconnectN_announced m (clientClose st)
                    (by simp [clientClose, hs])]
          · have hrest := soft_disconnectN_announced m
              (clientClose { st with softDiscon := true }) (by simp [clientClose])
            simp [soft_disconnectN, soft_disconnect, he, hs, hrest]
        · have he' : is_exists st = false := by simpa using he
          simp [soft_disconnectN_no_client _ st he', he']
  · by_cases he : st.clientId.isSome = true
    · by_cases hs : st.softDiscon = true <;>
        simp [soft_disconnect, is_exists, clientClose, he, hs]
    · simp [soft_disconnect, is_exists, clientClose, he]

/-- Claim C8 (counterexample): a candidate logger whose `info`, `warning`
and `error` attributes are callable but which has no `debug` attribute at
all is nevertheless accepted and installed by `set_logger` — refuting the
claim that an object missing any of debug/info/warning/error is rejected. -/
theorem claim_C8_counterexample :
    (set_logger none loggerNoDebugAttr).2 = true ∧
    attrCallable loggerNoDebugAttr.debugAttr = false := by
  exact ⟨rfl, rfl⟩

/-- Claim C8 (amended): `set_logger` installs the candidate if and only if
it exposes callable `info`, `warning` and `error` methods — `debug` is not
checked; on rejection it prints a diagnostic and the previously stored
logger is kept unchanged, and the call always returns normally. -/
theorem claim_C8_set_logger_validation (current : Option LoggerObj)
    (logger : LoggerObj) :
    (set_logger current logger).2 =
      (attrCallable logger.infoAttr && attrCallable logger.warningAttr &&
        attrCallable logger.errorAttr) ∧
    (set_logger current logger).1 =
      (if attrCallable logger.infoAttr && attrCallable logger.warningAttr &&
          attrCallable logger.errorAttr then some logger else current) := by
  unfold set_logger
  split <;> simp_all

/-- Claim C3 (counterexample): at construction the session's adapter handle
is `None` (no adapter instance is created by `__init__`), and two runs of
`__connect` — the initial connection and a reconnect after the link dropped
— produce two DIFFERENT adapter instances: the handle is replaced, not
reused. -/
theorem claim_C3_counterexample :
    initSession.clientId = none ∧
    (privConnect initSession true).1.clientId = some 0 ∧
    (privConnect { (privConnect initSession true).1 with connected := false }
        true).1.clientId = some 1 ∧
    (privConnect initSession true).1.clientId ≠
      (privConnect { (privConnect initSession true).1 with connected := false }
          true).1.clientId := by
  decide

/-- Claim C3 (amended): the constructor creates no adapter instance (the
handle starts as `None`); instead, EVERY run of `__connect` — the first
connect and each reconnect — instantiates a fresh adapter instance and
replaces the session's handle with it. -/
theorem claim_C3_adapter_recreated_each_connect (st : SessionState)
    (connectOk : Bool) :
    (privConnect st connectOk).1.clientId = some st.nextId ∧
    (privConnect st connectOk).1.nextId = st.nextId + 1 ∧
    initSession.clientId = none := by
  unfold privConnect
  cases connectOk <;> simp [initSession]

/-- Claim C9 (the code at the failing input): for the TCP client with any
host/port pair (values opaque), `DMAioModbusTcpClient.temp_connect` hands
the base layer the SERIAL adapter class `AsyncModbusSerialClient`, while
`DMAioModbusTcpClient.__init__` uses `AsyncModbusTcpClient` — the
short-lived session is NOT built with the network transport adapter class
the persistent TCP constructor uses. -/
theorem claim_C9_tcp_temp_connect_uses_serial_adapter :
    (tcpClientTempConnect (0 : Nat) 1).1 = AdapterClass.asyncModbusSerialClient ∧
    (tcpClientInit (0 : Nat) 1).1 = AdapterClass.asyncModbusTcpClient ∧
    (tcpClientTempConnect (0 : Nat) 1).1 ≠ (tcpClientInit (0 : Nat) 1).1 := by
  decide

/-- Claim C2: for any queue of actions submitted to one session while a
drain is active, the drain-loop invocation trace is exactly the submission
order, where a valid action that fails its first attempt is retried exactly
once, immediately after its own failure and before any later-queued action,
and a failing retry is dropped (invalid entries are skipped without
consuming a retry slot); no interleaving with earlier or later actions
occurs. -/
theorem claim_C2_fifo_retry_once (callableAct : Nat → Bool)
    (succeeds : Nat → Nat → Bool) (queue : List Nat) :
    drainLoop callableAct succeeds queue none =
      queue.flatMap (fun a =>
        if !callableAct a then []
        else if succeeds a 0 then [(a, 0)]
        else [(a, 0), (a, 1)]) := by
  induction queue with
  | nil => simp [drainLoop]
  | cons a rest ih =>
      by_cases hc : callableAct a
      · by_cases hs : succeeds a 0
        · simp [drainLoop, hc, hs, ih]
        · simp [drainLoop, hc, hs, ih]
      · simp [drainLoop, hc, ih]

/-- Characterization of `__execute` when the adapter handle exists: it
never raises, its result is the response exactly when the call returned a
response with no error indication, and every error outcome leaves one of
the two error log lines. -/
theorem execute_exists_spec (st : SessionState) (rit : Bool) (call : AdapterCall)
    (hex : is_exists st = true) :
    (execute st rit call).raised = none ∧
    ((execute st rit call).result =
      match call with
      | .ok r => if r.isErrFlag || r.isExceptionResp then none else some r
      | .error _ => none) ∧
    (callIndicatesError call = true →
      LogEvent.errModbusLogged ∈ (execute st rit call).logs ∨
      LogEvent.errOtherLogged ∈ (execute st rit call).logs) := by
  have hex' : st.clientId.isSome = true := by simpa [is_exists] using hex
  rcases call with e | r
  · rcases e <;>
    by_cases hc : st.connected = true <;>
    by_cases hr : rit = true <;>
    simp [execute, callIndicatesError, is_exists, is_connected, hex', hc, hr]
  · by_cases h1f : r.isErrFlag = true <;>
    by_cases h2f : r.isExceptionResp = true <;>
    by_cases hc : st.connected = true <;>
    by_cases hr : rit = true <;>
    simp [execute, callIndicatesError, is_exists, is_connected, hex', h1f, h2f,
          hc, hr]

/-- `__execute` when the adapter handle is `None`: it logs the skip and
the missing-method error, returns `None`, raises nothing, and leaves the
session state untouched. -/
theorem execute_no_client (st : SessionState) (rit : Bool) (call : AdapterCall)
    (hno : is_exists st = false) :
    execute st rit call =
      { result := none, st := st, raised := none,
        logs := [LogEvent.warnSkipped, LogEvent.errMethodNotFound] } := by
  have h : st.clientId.isSome = false := by simpa [is_exists] using hno
  simp [execute, is_exists, is_connected, h]

/-- `__read_register` error behaviour when the adapter handle exists. -/
theorem read_register_err_spec (st : SessionState) (rit : Bool) (count : Nat)
    (call : AdapterCall) (hex : is_exists st = true) :
    (read_register st rit count call).2.2.2 = none ∧
    (callIndicatesError call = true →
      (read_register st rit count call).1 = none ∧
      (LogEvent.errModbusLogged ∈ (read_register st rit count call).2.2.1 ∨
       LogEvent.errOtherLogged ∈ (read_register st rit count call).2.2.1)) := by
  obtain ⟨h1, h2, h3⟩ := execute_exists_spec st rit call hex
  constructor
  · simp only [read_register, h1]
    rcases hres : (execute st rit call).result with _ | r <;> simp
  · intro herr
    have hresnone : (execute st rit call).result = none := by
      rcases call with e | r
      · simp [h2]
      · have hf : (r.isErrFlag || r.isExceptionResp) = true := herr
        simp [h2, hf]
    refine ⟨by simp [read_register, h1, hresnone], ?_⟩
    simpa [read_register, h1, hresnone] using h3 herr

/-- `__write` behaviour when the adapter handle exists: no raise, the
boolean result is exactly "the adapter's response indicates no error", and
error outcomes are logged. -/
theorem write_spec (st : SessionState) (rit : Bool) (call : AdapterCall)
    (hex : is_exists st = true) :
    (write st rit call).2.2.2 = none ∧
    (write st rit call).1 = !callIndicatesError call ∧
    (callIndicatesError call = true →
      LogEvent.errModbusLogged ∈ (write st rit call).2.2.1 ∨
      LogEvent.errOtherLogged ∈ (write st rit call).2.2.1) := by
  obtain ⟨h1, h2, h3⟩ := execute_exists_spec st rit call hex
  refine ⟨?_, ?_, ?_⟩
  · simp [write, h1]
  · rcases call with e | r
    · simp [write, h1, h2, callIndicatesError]
    · by_cases h1f : r.isErrFlag = true <;> by_cases h2f : r.isExceptionResp = true <;>
        simp [write, h1, h2, callIndicatesError, h1f, h2f]
  · intro herr
    simpa [write, h1] using h3 herr

/-- Claim C1: for every register operation (the four reads and four
writes), if the adapter's response carries an error flag or is an
exception-class response, or the adapter call raises any exception, the
operation logs the failure and returns an absent result (`None`) for reads
and `False` for writes; no exception propagates past the Register
Operation Layer to the caller; and a write returns `True` iff the
adapter's response indicates no error. -/
theorem claim_C1_register_op_error_handling (op : RegOp) (st : SessionState)
    (rit : Bool) (count : Nat) (call : AdapterCall)
    (hex : is_exists st = true) :
    (runOp op st rit count call).raised = none ∧
    (callIndicatesError call = true →
      (runOp op st rit count call).res =
        (if op.isWrite then OpResult.writeRes false else OpResult.readRes none) ∧
      (LogEvent.errModbusLogged ∈ (runOp op st rit count call).logs ∨
       LogEvent.errOtherLogged ∈ (runOp op st rit count call).logs)) ∧
    (op.isWrite = true →
      ((runOp op st rit count call).res = OpResult.writeRes true ↔
        callIndicatesError call = false)) := by
  obtain ⟨hr1, hr2⟩ := read_register_err_spec st rit count call hex
  obtain ⟨hw1, hw2, hw3⟩ := write_spec st rit call hex
  cases op <;>
    first
      | exact ⟨hr1,
          fun herr => ⟨by simp [runOp, RegOp.isWrite, (hr2 herr).1],
                       by simpa [runOp] using (hr2 herr).2⟩,
          by simp [RegOp.isWrite]⟩
      | exact ⟨hw1,
          fun herr => ⟨by simp [runOp, RegOp.isWrite, hw2, herr],
                       by simpa [runOp] using hw3 herr⟩,
          fun _ => by simp [runOp, hw2]⟩

/-- Witness for C1 at a concrete input: a connected session, `write_coil`,
and a response whose error flag is set. -/
theorem claim_C1_register_op_error_handling_witness :
    (runOp RegOp.write_coil stConn true 0 (Except.ok respErr)).raised = none ∧
    (callIndicatesError (Except.ok respErr) = true →
      (runOp RegOp.write_coil stConn true 0 (Except.ok respErr)).res =
        (if (RegOp.write_coil).isWrite then OpResult.writeRes false
         else OpResult.readRes none) ∧
      (LogEvent.errModbusLogged ∈
          (runOp RegOp.write_coil stConn true 0 (Except.ok respErr)).logs ∨
       LogEvent.errOtherLogged ∈
          (runOp RegOp.write_coil stConn true 0 (Except.ok respErr)).logs)) ∧
    ((RegOp.write_coil).isWrite = true →
      ((runOp RegOp.write_coil stConn true 0 (Except.ok respErr)).res =
          OpResult.writeRes true ↔
        callIndicatesError (Except.ok respErr) = false)) :=
  claim_C1_register_op_error_handling RegOp.write_coil stConn true 0
    (Except.ok respErr) (by decide)

/-- Claim C6: for every read operation, on a successful adapter response
the operation returns the response's register list — the empty list when
the response carries no `registers` attribute — never raises, and when the
returned length differs from the requested count it logs a warning while
still returning the received list. -/
theorem claim_C6_read_returns_received (op : RegOp) (st : SessionState)
    (rit : Bool) (count : Nat) (r : Response)
    (hread : op.isWrite = false) (hex : is_exists st = true)
    (herr : r.isErrFlag = false) (hexc : r.isExceptionResp = false) :
    (runOp op st rit count (Except.ok r)).res =
      OpResult.readRes (some (r.registers.getD [])) ∧
    (runOp op st rit count (Except.ok r)).raised = none ∧
    (count ≠ (r.registers.getD []).length →
      LogEvent.warnCountMismatch ∈ (runOp op st rit count (Except.ok r)).logs) := by
  obtain ⟨h1, h2, h3⟩ := execute_exists_spec st rit (Except.ok r) hex
  have hres : (execute st rit (Except.ok r)).result = some r := by
    simp [h2, herr, hexc]
  have hdata : (match r.registers with | some l => l | none => []) =
      r.registers.getD [] := by
    cases r.registers <;> rfl
  cases op <;> simp [RegOp.isWrite] at hread <;>
    exact ⟨by simp [runOp, read_register, h1, hres, hdata],
           by simp [runOp, read_register, h1, hres],
           fun hcnt => by simp [runOp, read_register, h1, hres, hdata, hcnt]⟩

/-- Witness for C6 at a concrete input: a connected session, `read_coils`
with requested count 2, and a successful response carrying one register. -/
theorem claim_C6_read_returns_received_witness :
    (runOp RegOp.read_coils stConn true 2 (Except.ok respOne)).res =
      OpResult.readRes (some (respOne.registers.getD [])) ∧
    (runOp RegOp.read_coils stConn true 2 (Except.ok respOne)).raised = none ∧
    (2 ≠ (respOne.registers.getD []).length →
      LogEvent.warnCountMismatch ∈
        (runOp RegOp.read_coils stConn true 2 (Except.ok respOne)).logs) :=
  claim_C6_read_returns_received RegOp.read_coils stConn true 2 respOne
    (by decide) (by decide) (by decide) (by decide)

/-- Claim C10: when the session's adapter instance does not exist (never
connected, or `disconnect` set the handle to `None`), every register
operation terminates normally without raising, logs the problem, returns
`None` for reads and `False` for writes, and leaves the session state
unchanged. -/
theorem claim_C10_missing_adapter_safe (op : RegOp) (st : SessionState)
    (rit : Bool) (count : Nat) (call : AdapterCall)
    (hno : is_exists st = false) :
    (runOp op st rit count call).raised = none ∧
    (runOp op st rit count call).st = st ∧
    (runOp op st rit count call).res =
      (if op.isWrite then OpResult.writeRes false else OpResult.readRes none) ∧
    LogEvent.warnSkipped ∈ (runOp op st rit count call).logs ∧
    LogEvent.errMethodNotFound ∈ (runOp op st rit count call).logs := by
  have he := execute_no_client st rit call hno
  cases op <;> simp [runOp, read_register, write, he, RegOp.isWrite]

/-- Witness for C10 at a concrete input: a session whose handle is `None`
and a `read_holding_registers` call. -/
theorem claim_C10_missing_adapter_safe_witness :
    (runOp RegOp.read_holding_registers stNoClient true 1 (Except.ok respOne)).raised
        = none ∧
    (runOp RegOp.read_holding_registers stNoClient true 1 (Except.ok respOne)).st
        = stNoClient ∧
    (runOp RegOp.read_holding_registers stNoClient true 1 (Except.ok respOne)).res =
      (if (RegOp.read_holding_registers).isWrite then OpResult.writeRes false
       else OpResult.readRes none) ∧
    LogEvent.warnSkipped ∈
      (runOp RegOp.read_holding_registers stNoClient true 1 (Except.ok respOne)).logs ∧
    LogEvent.errMethodNotFound ∈
      (runOp RegOp.read_holding_registers stNoClient true 1 (Except.ok respOne)).logs :=
  claim_C10_missing_adapter_safe RegOp.read_holding_registers stNoClient true 1
    (Except.ok respOne) (by decide)

/-- If the connect retry loop returned, the session's adapter handle is
set (the loop only exits connected, right after `__connect` assigned a
fresh instance or because the link was already live). -/
theorem connectAttempts_some_exists (oracle : Nat → Bool) (fuel : Nat) :
    ∀ (k : Nat) (st : SessionState) (logs : List LogEvent)
      (st' : SessionState) (l' : List LogEvent),
      connectAttempts oracle fuel k st logs = some (st', l') →
      is_exists st' = true := by
  induction fuel with
  | zero =>
      intro k st logs st' l' h
      simp [connectAttempts] at h
  | succ fuel ih =>
      intro k st logs st' l' h
      by_cases hconn : is_connected st = true
      · simp [connectAttempts, hconn] at h
        obtain ⟨h1, -⟩ := h
        have hx : is_exists st = true := by
          have h2 := hconn
          simp [is_connected] at h2
          exact h2.1
        rw [← h1]
        exact hx
      · by_cases hb : oracle k = true
        · simp [connectAttempts, hconn, privConnect, hb] at h
          obtain ⟨h1, -⟩ := h
          rw [← h1]
          simp [is_exists]
        · simp only [connectAttempts, hconn, privConnect, hb, Bool.false_eq_true,
            if_false, if_neg] at h
          exact ih _ _ _ _ _ h

/-- Claim C4: for every (callable) callback passed to `temp_connect` —
whether or not a class-level logger was configured — once the ephemeral
session's connect phase completes, the caller callback is invoked exactly
once, the connection is closed via soft-disconnect on every exit path —
whether the callback returns normally (its value is returned) or raises
(the exception is caught and logged, `None` is returned) — and no
exception reaches the caller of `temp_connect`. -/
theorem claim_C4_temp_connect_cleanup (classLoggerSet : Bool)
    (oracle : Nat → Bool) (fuel : Nat) (cbRaises : Bool) (cbValue : Nat)
    (hdone : (temp_connect classLoggerSet true oracle fuel cbRaises
        cbValue).diverged = false) :
    (temp_connect classLoggerSet true oracle fuel cbRaises cbValue).callbackRuns
        = 1 ∧
    (temp_connect classLoggerSet true oracle fuel cbRaises cbValue).closeCalled
        = true ∧
    (temp_connect classLoggerSet true oracle fuel cbRaises cbValue).raisedToCaller
        = none ∧
    (cbRaises = true →
      LogEvent.errCallback ∈
        (temp_connect classLoggerSet true oracle fuel cbRaises cbValue).logs ∧
      (temp_connect classLoggerSet true oracle fuel cbRaises cbValue).retval
        = none) ∧
    (cbRaises = false →
      (temp_connect classLoggerSet true oracle fuel cbRaises cbValue).retval
        = some cbValue) := by
  rcases hc : connect initSession oracle fuel with _ | p
  · exfalso
    simp [temp_connect, hc] at hdone
  · obtain ⟨st1, l1⟩ := p
    have hex1 : is_exists st1 = true := by
      have hc' : connectAttempts oracle fuel 0 initSession [] = some (st1, l1) := by
        simpa [connect, is_connected, is_exists, initSession] using hc
      exact connectAttempts_some_exists oracle fuel 0 initSession [] st1 l1 hc'
    have hclose : (soft_disconnect st1).2.2 = true := by
      by_cases hs : st1.softDiscon = true <;> simp [soft_disconnect, hex1, hs]
    cases cbRaises <;> simp [temp_connect, hc, hclose]

/-- Witness for C4 at a concrete input: no class logger configured, every
connect attempt succeeds, the callback raises. -/
theorem claim_C4_temp_connect_cleanup_witness :
    (temp_connect false true (fun _ => true) 1 true 0).callbackRuns = 1 ∧
    (temp_connect false true (fun _ => true) 1 true 0).closeCalled = true ∧
    (temp_connect false true (fun _ => true) 1 true 0).raisedToCaller = none ∧
    (true = true →
      LogEvent.errCallback ∈ (temp_connect false true (fun _ => true) 1 true 0).logs ∧
      (temp_connect false true (fun _ => true) 1 true 0).retval = none) ∧
    (true = false →
      (temp_connect false true (fun _ => true) 1 true 0).retval = some 0) :=
  claim_C4_temp_connect_cleanup false (fun _ => true) 1 true 0 (by decide)

/-- Claim C5 (counterexample): a run of the ephemeral mode in which
connection establishment fails (the first connect attempt returns false,
so `__connect` raises `ConnectionError` inside the retry loop, which logs
it and retries; the second attempt succeeds): `temp_connect` completes,
raises nothing at all to its caller, and returns the callback's value —
the connection-establishment failure was only logged, not reported via a
raised error the caller must handle. -/
theorem claim_C5_counterexample_failure_not_raised :
    (temp_connect false true (fun k => k != 0) 5 false 7).raisedToCaller = none ∧
    LogEvent.errConnRetrying ∈
      (temp_connect false true (fun k => k != 0) 5 false 7).logs ∧
    (temp_connect false true (fun k => k != 0) 5 false 7).retval = some 7 := by
  decide

/-- Claim C5 (amended): connection-establishment failure in ephemeral mode
is never reported to the caller of `temp_connect` as a raised error: on
every run with a callable callback (any class-logger configuration, any
connect-attempt outcomes, any callback behaviour), the retry loop inside
`connect` catches every connect failure, logs it and retries (so `connect`
either succeeds or never returns), and `temp_connect`'s own
`except ConnectionError` handler would catch and merely log any
`ConnectionError` that did reach it — nothing propagates to the call
site.  (This says nothing about the unrelated non-callable-callback path,
where the guard's own log line can raise `AttributeError`, see
`temp_connect_noncallable_no_logger_raises`.) -/
theorem claim_C5_amended_no_raise_to_caller (classLoggerSet : Bool)
    (oracle : Nat → Bool) (fuel : Nat) (cbRaises : Bool) (cbValue : Nat) :
    (temp_connect classLoggerSet true oracle fuel cbRaises
      cbValue).raisedToCaller = none := by
  rcases hc : connect initSession oracle fuel with _ | p
  · simp [temp_connect, hc]
  · obtain ⟨st1, l1⟩ := p
    cases cbRaises <;> simp [temp_connect, hc]

/-- Fidelity of the one raising path of `temp_connect`: with a
non-callable callback and no class-level logger installed, the guard's
`cls.__logger.error(...)` dereferences `None` and an `AttributeError`
escapes to the caller before anything else happens. -/
theorem temp_connect_noncallable_no_logger_raises (oracle : Nat → Bool)
    (fuel : Nat) (cbRaises : Bool) (cbValue : Nat) :
    (temp_connect false false oracle fuel cbRaises cbValue).raisedToCaller =
      some PyExn.attrErr ∧
    (temp_connect false false oracle fuel cbRaises cbValue).callbackRuns = 0 := by
  exact ⟨rfl, rfl⟩
